import Mathlib

/-
  Verification of the allergy-diary application (symptom_tracker_app.py).

  The Python source is shallowly embedded: every external effect
  (HTTP requests, CSV download, station directory lookup, file writes)
  is passed in as an explicit oracle argument; a Python exception is an
  `Except Err` error; a Python value is a `PyVal`; a Python dict is an
  association list of string keys in insertion order.
-/

set_option autoImplicit false
set_option linter.unusedVariables false

/-- Python exception classes relevant to the embedded code paths. -/
inductive Err where
  | connError      -- requests.ConnectionError and friends (network failure)
  | httpError      -- requests.HTTPError from raise_for_status
  | parseError     -- JSON decode error / pandas CSV parse error
  | attrError      -- AttributeError (e.g. .get on a non-dict)
  | indexError     -- IndexError (.iloc[0] on an empty frame)
  | valueError     -- ValueError (e.g. strptime on a malformed string)
  | ioError        -- OSError while writing the store file
deriving DecidableEq, Repr

/-- A Python value as it flows through this program: None, numbers,
strings and (JSON-decoded) dicts. -/
inductive PyVal where
  | none
  | int (n : Int)
  | str (s : String)
  | dict (fields : List (String × PyVal))

/-- Key lookup in a Python dict (association list, keys unique by
construction of Python dicts; first binding wins). -/
def lookupKey (fields : List (String × PyVal)) (k : String) : Option PyVal :=
  (fields.find? (fun p => p.1 == k)).map (fun p => p.2)

/-- Whether a Python value is a dict. -/
def PyVal.isDict : PyVal → Bool
  | PyVal.dict _ => true
  | _ => false

/-- Python `d.get(k, default)` where `d` must be a dict: on a non-dict
receiver the attribute access raises AttributeError. -/
def pyGetD (v : PyVal) (k : String) (dflt : PyVal) : Except Err PyVal :=
  match v with
  | PyVal.dict fs => Except.ok ((lookupKey fs k).getD dflt)
  | _ => Except.error Err.attrError

/- ----------------------------------------------------------------
   get_weather (symptom_tracker_app.py lines 24-37)
   ---------------------------------------------------------------- -/

/-- Calendar dates, abstracted to a day number: the code only ever
compares dates for equality and passes them through. -/
abbrev Date := Nat

/-- The three runtime shapes the `dt` argument of `get_weather` can
take, per the isinstance dispatch in the source. -/
inductive DtInput where
  | date (d : Date)        -- already a datetime.date
  | str (s : String)       -- an ISO string, parsed with strptime
  | timestamp (d : Date)   -- a pd.Timestamp, .date() extracts the day
deriving DecidableEq, Repr

/-- The date-normalization prologue of `get_weather`:
`strptime` is the parse oracle and may raise ValueError. -/
def normalizeDt (strptime : String → Except Err Date) : DtInput → Except Err Date
  | DtInput.date d => Except.ok d
  | DtInput.str s => strptime s
  | DtInput.timestamp d => Except.ok d

/-- Meteostat station identifiers. -/
abbrev StationId := String

/-- One day of daily-aggregated observations as returned by
`Daily(station, dt, dt).fetch()`: a data frame, i.e. named columns. -/
abbrev WeatherFrame := List (String × PyVal)

/-- `get_weather(dt, lat, lon)` (lines 24-37).  Oracles:
`strptime` for string-date parsing, `stationsFetch` for
`Stations().nearby(lat, lon).fetch(1)` (a possibly-empty station list,
or a raised network error), `dailyFetch` for
`Daily(station, dt, dt).fetch()`.  The source has no try/except: every
oracle error propagates.  An empty station frame returns Python None,
embedded as `Option.none`. -/
def get_weather (strptime : String → Except Err Date)
    (stationsFetch : PyVal → PyVal → Except Err (List StationId))
    (dailyFetch : StationId → Date → Except Err WeatherFrame)
    (dt : DtInput) (lat lon : PyVal) : Except Err (Option WeatherFrame) := do
  let d ← normalizeDt strptime dt
  let stationFrame ← stationsFetch lat lon
  match stationFrame with
  | [] => pure Option.none
  | s :: _ => do
      let data ← dailyFetch s d
      pure (Option.some data)

/- ----------------------------------------------------------------
   get_pollenstiftung (lines 41-55)
   ---------------------------------------------------------------- -/

/-- An HTTP response as used by the code: a status code and the result
of `resp.json()` (which may raise a decode error). -/
structure Resp where
  status : Nat
  jsonBody : Except Err PyVal

/-- `resp.raise_for_status()`: raises HTTPError on a 4xx or 5xx code. -/
def raiseForStatus (r : Resp) : Except Err Unit :=
  if 400 ≤ r.status ∧ r.status < 600 then Except.error Err.httpError
  else Except.ok ()

/-- The all-absent pollen dict returned by both providers on failure. -/
def pollenAllNone : List (String × PyVal) :=
  [("birke", PyVal.none), ("gräser", PyVal.none), ("ambrosia", PyVal.none)]

/-- The `try` body of `get_pollenstiftung`: the GET request (keyed by
the lat/lng params), `raise_for_status`, `resp.json()`, then
`data.get(allergen, {}).get('index')` for the three allergens. -/
def pollenstiftungTry (httpGet : PyVal → PyVal → Except Err Resp)
    (lat lon : PyVal) : Except Err (List (String × PyVal)) := do
  let resp ← httpGet lat lon
  let _ ← raiseForStatus resp
  let data ← resp.jsonBody
  let b ← pyGetD data "birke" (PyVal.dict [])
  let bi ← pyGetD b "index" PyVal.none
  let g ← pyGetD data "gräser" (PyVal.dict [])
  let gi ← pyGetD g "index" PyVal.none
  let a ← pyGetD data "ambrosia" (PyVal.dict [])
  let ai ← pyGetD a "index" PyVal.none
  pure [("birke", bi), ("gräser", gi), ("ambrosia", ai)]

/-- `get_pollenstiftung(lat, lon)` (lines 41-55): the try body under a
catch-all `except` returning the all-None dict. -/
def get_pollenstiftung (httpGet : PyVal → PyVal → Except Err Resp)
    (lat lon : PyVal) : List (String × PyVal) :=
  match pollenstiftungTry httpGet lat lon with
  | Except.ok r => r
  | Except.error _ => pollenAllNone

/- ----------------------------------------------------------------
   get_dwd_pollen (lines 58-72)
   ---------------------------------------------------------------- -/

/-- Configured base URL for DWD pollen CSV files (line 19). -/
def DWD_POLLEN_BASE_URL : String :=
  "https://opendata.dwd.de/climate_environment/health/pollen_stations"

/-- The fixed example station id of `get_dwd_pollen` (line 61). -/
def dwdStationId : String := "001"

/-- The dataset URL built by `get_dwd_pollen` (line 62). -/
def dwdUrl : String := DWD_POLLEN_BASE_URL ++ "/" ++ dwdStationId ++ ".csv"

/-- One parsed CSV row: the date column (already parsed by
`parse_dates=['date'], dayfirst=True`) plus the remaining columns. -/
structure CsvRow where
  date : Date
  cols : List (String × PyVal)

/-- pandas `Series.get(label)`: the value if the label exists,
Python None otherwise (no exception). -/
def seriesGet (r : CsvRow) (k : String) : PyVal :=
  (lookupKey r.cols k).getD PyVal.none

/-- The `try` body of `get_dwd_pollen`: download+parse the CSV at the
fixed station URL, filter rows on date equality, take `.iloc[0]`
(IndexError when no row matches), and map the localized columns. -/
def dwdPollenTry (readCsv : String → Except Err (List CsvRow))
    (dt : Date) : Except Err (List (String × PyVal)) := do
  let df ← readCsv dwdUrl
  match df.filter (fun r => r.date == dt) with
  | [] => Except.error Err.indexError
  | row :: _ =>
      pure [("birke", seriesGet row "Birke"),
            ("gräser", seriesGet row "Gräser"),
            ("ambrosia", seriesGet row "Ambrosia")]

/-- `get_dwd_pollen(lat, lon, dt)` (lines 58-72): the try body under a
catch-all `except` returning the all-None dict.  `lat` and `lon` are
accepted but unused in the source (the station id is hardcoded). -/
def get_dwd_pollen (readCsv : String → Except Err (List CsvRow))
    (lat lon : PyVal) (dt : Date) : List (String × PyVal) :=
  match dwdPollenTry readCsv dt with
  | Except.ok r => r
  | Except.error _ => pollenAllNone

/- ----------------------------------------------------------------
   Entry assembly and persistence (lines 112-126)
   ---------------------------------------------------------------- -/

/-- The thirteen values that go into one diary entry, in source order. -/
structure EntryArgs where
  datum : PyVal
  lat : PyVal
  lon : PyVal
  tavg : PyVal
  rhum : PyVal
  prcp : PyVal
  birke : PyVal
  graeser : PyVal
  ambrosia : PyVal
  muedigkeit : PyVal
  nase_laufen : PyVal
  halsweh : PyVal
  anmerkungen : PyVal

/-- The `entry` dict literal (lines 113-120): thirteen keys in the
insertion order of the source. -/
def mkEntry (a : EntryArgs) : List (String × PyVal) :=
  [("Datum", a.datum),
   ("lat", a.lat), ("lon", a.lon),
   ("tavg", a.tavg), ("rhum", a.rhum), ("prcp", a.prcp),
   ("birke", a.birke), ("gräser", a.graeser), ("ambrosia", a.ambrosia),
   ("muedigkeit", a.muedigkeit), ("nase_laufen", a.nase_laufen),
   ("halsweh", a.halsweh),
   ("anmerkungen", a.anmerkungen)]

/-- The store file contents: a list of rows, each a list of cells.
`pd.DataFrame([entry]).to_csv` writes the header row as the dict keys
and the data row as the dict values, in dict insertion order. -/
abbrev StoreFile := List (List PyVal)

/-- The header row written on first save: the entry keys as strings. -/
def headerRowOf (entry : List (String × PyVal)) : List PyVal :=
  entry.map (fun kv => PyVal.str kv.1)

/-- A data row: the entry values in key order. -/
def dataRowOf (entry : List (String × PyVal)) : List PyVal :=
  entry.map (fun kv => kv.2)

/-- The successful effect of the save block (lines 121-126): if the
store file exists, append the data row without a header
(`mode='a', header=False`); otherwise create it with header + row. -/
def saveStep (entry : List (String × PyVal)) (file : Option StoreFile) : StoreFile :=
  match file with
  | Option.some rows => rows ++ [dataRowOf entry]
  | Option.none => [headerRowOf entry, dataRowOf entry]

/-- Whether the `to_csv` write succeeds or raises an I/O error. -/
inductive WriteOutcome where
  | ok
  | ioFail
deriving DecidableEq, Repr

/-- The save block (lines 112-126) with its write oracle: `to_csv` is
not wrapped in any try/except, so a raised I/O error propagates to the
caller; on success the new file contents are produced. -/
def saveEntry (entry : List (String × PyVal)) (file : Option StoreFile)
    (w : WriteOutcome) : Except Err StoreFile :=
  match w with
  | WriteOutcome.ioFail => Except.error Err.ioError
  | WriteOutcome.ok => Except.ok (saveStep entry file)

/-- Iterated successful saves: each save re-checks file existence, so
after the first save the file exists and later saves append. -/
def saveAll (entries : List (List (String × PyVal))) (file : Option StoreFile) :
    Option StoreFile :=
  match entries with
  | [] => file
  | e :: rest => saveAll rest (Option.some (saveStep e file))

/-- The fixed store column order of the source (lines 113-120). -/
def entryFieldOrder : List String :=
  ["Datum", "lat", "lon", "tavg", "rhum", "prcp",
   "birke", "gräser", "ambrosia",
   "muedigkeit", "nase_laufen", "halsweh", "anmerkungen"]

/- ----------------------------------------------------------------
   Concrete oracle instantiations used by witnesses and
   counterexamples
   ---------------------------------------------------------------- -/

/-- A strptime oracle that rejects every string (unused on date inputs). -/
def strptimeStub : String → Except Err Date := fun _ => Except.error Err.valueError

/-- A station directory returning one nearby station. -/
def stationsOneHit : PyVal → PyVal → Except Err (List StationId) :=
  fun _ _ => Except.ok ["10637"]

/-- A station directory returning an empty station frame. -/
def stationsEmpty : PyVal → PyVal → Except Err (List StationId) :=
  fun _ _ => Except.ok []

/-- A daily-observations fetch that raises a network error. -/
def dailyFetchDown : StationId → Date → Except Err WeatherFrame :=
  fun _ _ => Except.error Err.connError

/-- A pollen service answering HTTP 500. -/
def httpGet500 : PyVal → PyVal → Except Err Resp :=
  fun _ _ => Except.ok { status := 500, jsonBody := Except.ok (PyVal.dict []) }

/-- A pollen service answering HTTP 301 (non-2xx, but not an error
status for raise_for_status) with a well-formed JSON body. -/
def httpGet301 : PyVal → PyVal → Except Err Resp :=
  fun _ _ => Except.ok
    { status := 301,
      jsonBody := Except.ok (PyVal.dict
        [("birke", PyVal.dict [("index", PyVal.int 2)])]) }

/-- A dataset row for 2024-05-01 (day number 20240501) with the
localized allergen columns. -/
def rowMay : CsvRow :=
  { date := 20240501,
    cols := [("Birke", PyVal.int 3), ("Gräser", PyVal.int 1),
             ("Ambrosia", PyVal.int 0)] }

/-- A second row for the same date with different values. -/
def rowMayDup : CsvRow :=
  { date := 20240501,
    cols := [("Birke", PyVal.int 7), ("Gräser", PyVal.int 6),
             ("Ambrosia", PyVal.int 5)] }

/-- A row for a different date. -/
def rowJune : CsvRow :=
  { date := 20240601,
    cols := [("Birke", PyVal.int 9), ("Gräser", PyVal.int 9),
             ("Ambrosia", PyVal.int 9)] }

/-- A dataset download with exactly one row for 2024-05-01. -/
def csvOneMatch : String → Except Err (List CsvRow) :=
  fun _ => Except.ok [rowJune, rowMay]

/-- A dataset download with no row for 2024-05-01. -/
def csvNoMatch : String → Except Err (List CsvRow) :=
  fun _ => Except.ok [rowJune]

/-- A dataset download with two rows for 2024-05-01. -/
def csvTwoMatches : String → Except Err (List CsvRow) :=
  fun _ => Except.ok [rowMay, rowMayDup, rowJune]

/- ----------------------------------------------------------------
   Generic Except-plumbing lemmas
   ---------------------------------------------------------------- -/

@[simp] theorem ok_bind {α β : Type} (a : α) (f : α → Except Err β) :
    (Except.ok a >>= f : Except Err β) = f a := rfl

@[simp] theorem error_bind {α β : Type} (e : Err) (f : α → Except Err β) :
    (Except.error e >>= f : Except Err β) = Except.error e := rfl

theorem exceptBind_eq_ok {α β : Type} {x : Except Err α} {f : α → Except Err β}
    {b : β} (h : (x >>= f) = Except.ok b) :
    ∃ a, x = Except.ok a ∧ f a = Except.ok b := by
  cases x with
  | error e => exact absurd h (by simp)
  | ok a => exact ⟨a, rfl, h⟩

/-- Any successful run of the Pollenstiftung try body produces the
three fixed keys in order. -/
theorem pollenstiftungTry_ok_keys (httpGet : PyVal → PyVal → Except Err Resp)
    (lat lon : PyVal) (r : List (String × PyVal))
    (h : pollenstiftungTry httpGet lat lon = Except.ok r) :
    r.map Prod.fst = ["birke", "gräser", "ambrosia"] := by
  unfold pollenstiftungTry at h
  obtain ⟨resp, h1, h⟩ := exceptBind_eq_ok h
  obtain ⟨u, h2, h⟩ := exceptBind_eq_ok h
  obtain ⟨data, h3, h⟩ := exceptBind_eq_ok h
  obtain ⟨b, h4, h⟩ := exceptBind_eq_ok h
  obtain ⟨bi, h5, h⟩ := exceptBind_eq_ok h
  obtain ⟨g, h6, h⟩ := exceptBind_eq_ok h
  obtain ⟨gi, h7, h⟩ := exceptBind_eq_ok h
  obtain ⟨av, h8, h⟩ := exceptBind_eq_ok h
  obtain ⟨ai, h9, h⟩ := exceptBind_eq_ok h
  cases h
  rfl

/-- Any successful run of the DWD try body produces the three fixed
keys in order. -/
theorem dwdPollenTry_ok_keys (readCsv : String → Except Err (List CsvRow))
    (dt : Date) (r : List (String × PyVal))
    (h : dwdPollenTry readCsv dt = Except.ok r) :
    r.map Prod.fst = ["birke", "gräser", "ambrosia"] := by
  unfold dwdPollenTry at h
  obtain ⟨df, h1, h⟩ := exceptBind_eq_ok h
  cases hf : df.filter (fun x => x.date == dt) with
  | nil => rw [hf] at h; exact absurd h (by simp)
  | cons row rest => rw [hf] at h; cases h; rfl

/-- Successful saves starting from an existing store append one data
row per entry, in order. -/
theorem saveAll_some (es : List (List (String × PyVal))) :
    ∀ rows : StoreFile,
      saveAll es (Option.some rows) = Option.some (rows ++ es.map dataRowOf) := by
  induction es with
  | nil => intro rows; simp [saveAll]
  | cons e rest ih =>
      intro rows
      simp [saveAll, saveStep, ih]

/- ----------------------------------------------------------------
   Claim theorems
   ---------------------------------------------------------------- -/

/-- C9: get_dwd_pollen ignores its latitude and longitude arguments:
for the same dataset oracle and date, any two coordinate pairs give
the same result, because the station identifier is the fixed constant
"001". -/
theorem get_dwd_pollen_ignores_coordinates
    (readCsv : String → Except Err (List CsvRow))
    (lat1 lon1 lat2 lon2 : PyVal) (dt : Date) :
    get_dwd_pollen readCsv lat1 lon1 dt = get_dwd_pollen readCsv lat2 lon2 dt := rfl

/-- C10: on every execution path, both pollen providers return a dict
with exactly the keys "birke", "gräser", "ambrosia" in that order and
no others, for any oracles and inputs. -/
theorem pollen_providers_key_shape
    (httpGet : PyVal → PyVal → Except Err Resp)
    (readCsv : String → Except Err (List CsvRow))
    (lat lon lat2 lon2 : PyVal) (dt : Date) :
    (get_pollenstiftung httpGet lat lon).map Prod.fst =
      ["birke", "gräser", "ambrosia"] ∧
    (get_dwd_pollen readCsv lat2 lon2 dt).map Prod.fst =
      ["birke", "gräser", "ambrosia"] := by
  constructor
  · unfold get_pollenstiftung
    cases h : pollenstiftungTry httpGet lat lon with
    | ok r => exact pollenstiftungTry_ok_keys httpGet lat lon r h
    | error e => rfl
  · unfold get_dwd_pollen
    cases h : dwdPollenTry readCsv dt with
    | ok r => exact dwdPollenTry_ok_keys readCsv dt r h
    | error e => rfl

/-- C6: an I/O error raised by the store write (to_csv) propagates to
the caller of the save block: there is no handler, so the save result
is that error; only a successful write produces new file contents. -/
theorem saveEntry_io_error_propagates
    (entry : List (String × PyVal)) (file : Option StoreFile) :
    saveEntry entry file WriteOutcome.ioFail = Except.error Err.ioError ∧
    saveEntry entry file WriteOutcome.ok = Except.ok (saveStep entry file) := by
  exact ⟨rfl, rfl⟩

/-- C8: every row written to the store has its fields in the fixed
order Datum, lat, lon, tavg, rhum, prcp, birke, gräser, ambrosia,
muedigkeit, nase_laufen, halsweh, anmerkungen (13 columns): the header
row is exactly those names and a data row is exactly the assembled
entry's values in that same key order. -/
theorem store_row_field_order (a : EntryArgs) (rows : StoreFile) :
    (mkEntry a).map Prod.fst = entryFieldOrder ∧
    entryFieldOrder.length = 13 ∧
    headerRowOf (mkEntry a) = entryFieldOrder.map PyVal.str ∧
    dataRowOf (mkEntry a) =
      [a.datum, a.lat, a.lon, a.tavg, a.rhum, a.prcp, a.birke, a.graeser,
       a.ambrosia, a.muedigkeit, a.nase_laufen, a.halsweh, a.anmerkungen] ∧
    (dataRowOf (mkEntry a)).length = 13 ∧
    saveStep (mkEntry a) Option.none =
      [headerRowOf (mkEntry a), dataRowOf (mkEntry a)] ∧
    saveStep (mkEntry a) (Option.some rows) = rows ++ [dataRowOf (mkEntry a)] := by
  refine ⟨rfl, rfl, rfl, rfl, rfl, rfl, rfl⟩

/-- C3: when the dataset downloads and parses successfully and exactly
one row matches the requested date, get_dwd_pollen returns that row's
values, mapped from the localized columns Birke, Gräser, Ambrosia to
the keys birke, gräser, ambrosia. -/
theorem get_dwd_pollen_single_match
    (readCsv : String → Except Err (List CsvRow)) (lat lon : PyVal)
    (dt : Date) (df : List CsvRow) (r : CsvRow)
    (hcsv : readCsv dwdUrl = Except.ok df)
    (hone : df.filter (fun x => x.date == dt) = [r]) :
    get_dwd_pollen readCsv lat lon dt =
      [("birke", seriesGet r "Birke"),
       ("gräser", seriesGet r "Gräser"),
       ("ambrosia", seriesGet r "Ambrosia")] := by
  unfold get_dwd_pollen dwdPollenTry
  rw [hcsv, ok_bind, hone]
  rfl

/-- C3 witness: a concrete dataset with exactly one row for day
20240501 carrying Birke=3, Gräser=1, Ambrosia=0. -/
theorem get_dwd_pollen_single_match_wit :
    csvOneMatch dwdUrl = Except.ok [rowJune, rowMay] ∧
    [rowJune, rowMay].filter (fun x => x.date == 20240501) = [rowMay] ∧
    get_dwd_pollen csvOneMatch (PyVal.int 51) (PyVal.int 10) 20240501 =
      [("birke", PyVal.int 3), ("gräser", PyVal.int 1),
       ("ambrosia", PyVal.int 0)] :=
  ⟨rfl, rfl,
   get_dwd_pollen_single_match csvOneMatch (PyVal.int 51) (PyVal.int 10)
     20240501 [rowJune, rowMay] rowMay rfl rfl⟩

/-- C4: when the dataset downloads and parses successfully but no row
matches the requested date, get_dwd_pollen returns the all-absent
dict (the IndexError from .iloc[0] is caught by the except). -/
theorem get_dwd_pollen_no_match_all_absent
    (readCsv : String → Except Err (List CsvRow)) (lat lon : PyVal)
    (dt : Date) (df : List CsvRow)
    (hcsv : readCsv dwdUrl = Except.ok df)
    (hnone : df.filter (fun x => x.date == dt) = []) :
    get_dwd_pollen readCsv lat lon dt = pollenAllNone := by
  unfold get_dwd_pollen dwdPollenTry
  rw [hcsv, ok_bind, hnone]

/-- C4 witness: a concrete dataset with no row for day 20240501. -/
theorem get_dwd_pollen_no_match_all_absent_wit :
    csvNoMatch dwdUrl = Except.ok [rowJune] ∧
    [rowJune].filter (fun x => x.date == 20240501) = [] ∧
    get_dwd_pollen csvNoMatch (PyVal.int 51) (PyVal.int 10) 20240501 =
      pollenAllNone :=
  ⟨rfl, rfl,
   get_dwd_pollen_no_match_all_absent csvNoMatch (PyVal.int 51) (PyVal.int 10)
     20240501 [rowJune] rfl rfl⟩

/-- C5: when more than one dataset row matches the requested date,
get_dwd_pollen uses only the first match in underlying row order
(.iloc[0] of the filtered frame) and returns its three mapped
values. -/
theorem get_dwd_pollen_first_match_of_many
    (readCsv : String → Except Err (List CsvRow)) (lat lon : PyVal)
    (dt : Date) (df : List CsvRow) (r1 r2 : CsvRow) (rest : List CsvRow)
    (hcsv : readCsv dwdUrl = Except.ok df)
    (hmany : df.filter (fun x => x.date == dt) = r1 :: r2 :: rest) :
    get_dwd_pollen readCsv lat lon dt =
      [("birke", seriesGet r1 "Birke"),
       ("gräser", seriesGet r1 "Gräser"),
       ("ambrosia", seriesGet r1 "Ambrosia")] := by
  unfold get_dwd_pollen dwdPollenTry
  rw [hcsv, ok_bind, hmany]
  rfl

/-- C5 witness: a concrete dataset with two rows for day 20240501; the
result carries the first row's values (3, 1, 0), not the second
row's (7, 6, 5). -/
theorem get_dwd_pollen_first_match_of_many_wit :
    csvTwoMatches dwdUrl = Except.ok [rowMay, rowMayDup, rowJune] ∧
    [rowMay, rowMayDup, rowJune].filter (fun x => x.date == 20240501) =
      [rowMay, rowMayDup] ∧
    get_dwd_pollen csvTwoMatches (PyVal.int 51) (PyVal.int 10) 20240501 =
      [("birke", PyVal.int 3), ("gräser", PyVal.int 1),
       ("ambrosia", PyVal.int 0)] :=
  ⟨rfl, rfl,
   get_dwd_pollen_first_match_of_many csvTwoMatches (PyVal.int 51)
     (PyVal.int 10) 20240501 [rowMay, rowMayDup, rowJune] rowMay rowMayDup []
     rfl rfl⟩

/-- C1 counterexample: with one nearby station and a daily-data fetch
that raises a network error, get_weather propagates the error instead
of returning a NotFound-shaped reading — it has no exception
handler. -/
theorem get_weather_error_escapes_cex :
    stationsOneHit (PyVal.int 51) (PyVal.int 10) = Except.ok ["10637"] ∧
    get_weather strptimeStub stationsOneHit dailyFetchDown
      (DtInput.date 20240501) (PyVal.int 51) (PyVal.int 10) =
      Except.error Err.connError :=
  ⟨rfl, rfl⟩

/-- C1 amended: once the date is normalized, get_weather returns
Python None (not an absent-fields reading) when the station lookup
succeeds with zero stations; any error raised by the station lookup
or the daily fetch propagates to the caller; on success it returns
the fetched frame. -/
theorem get_weather_amended_behavior
    (strptime : String → Except Err Date)
    (stationsFetch : PyVal → PyVal → Except Err (List StationId))
    (dailyFetch : StationId → Date → Except Err WeatherFrame)
    (dt : DtInput) (lat lon : PyVal) (d : Date)
    (hd : normalizeDt strptime dt = Except.ok d) :
    (stationsFetch lat lon = Except.ok [] →
      get_weather strptime stationsFetch dailyFetch dt lat lon =
        Except.ok Option.none) ∧
    (∀ e, stationsFetch lat lon = Except.error e →
      get_weather strptime stationsFetch dailyFetch dt lat lon =
        Except.error e) ∧
    (∀ s ss e, stationsFetch lat lon = Except.ok (s :: ss) →
      dailyFetch s d = Except.error e →
      get_weather strptime stationsFetch dailyFetch dt lat lon =
        Except.error e) ∧
    (∀ s ss w, stationsFetch lat lon = Except.ok (s :: ss) →
      dailyFetch s d = Except.ok w →
      get_weather strptime stationsFetch dailyFetch dt lat lon =
        Except.ok (Option.some w)) := by
  refine ⟨?_, ?_, ?_, ?_⟩
  · intro hs
    unfold get_weather
    simp only [hd, ok_bind, hs]
    rfl
  · intro e hs
    unfold get_weather
    simp only [hd, ok_bind, hs, error_bind]
  · intro s ss e hs hdf
    unfold get_weather
    simp only [hd, ok_bind, hs, hdf, error_bind]
  · intro s ss w hs hdf
    unfold get_weather
    simp only [hd, ok_bind, hs, hdf]
    rfl

/-- C1 amended witness: with zero nearby stations the concrete run
returns Python None without raising. -/
theorem get_weather_amended_behavior_wit :
    normalizeDt strptimeStub (DtInput.date 20240501) = Except.ok 20240501 ∧
    get_weather strptimeStub stationsEmpty dailyFetchDown
      (DtInput.date 20240501) (PyVal.int 51) (PyVal.int 10) =
      Except.ok Option.none :=
  ⟨rfl,
   (get_weather_amended_behavior strptimeStub stationsEmpty dailyFetchDown
      (DtInput.date 20240501) (PyVal.int 51) (PyVal.int 10) 20240501 rfl).1 rfl⟩

/-- C2 counterexample: a non-2xx response (HTTP 301) with a
well-formed JSON body is not treated as a failure — raise_for_status
only raises on 4xx/5xx — so get_pollenstiftung returns the extracted
index values, not the all-absent dict. -/
theorem get_pollenstiftung_non2xx_cex :
    httpGet301 (PyVal.int 51) (PyVal.int 10) =
      Except.ok { status := 301,
                  jsonBody := Except.ok (PyVal.dict
                    [("birke", PyVal.dict [("index", PyVal.int 2)])]) } ∧
    get_pollenstiftung httpGet301 (PyVal.int 51) (PyVal.int 10) =
      [("birke", PyVal.int 2), ("gräser", PyVal.none),
       ("ambrosia", PyVal.none)] ∧
    get_pollenstiftung httpGet301 (PyVal.int 51) (PyVal.int 10) ≠
      pollenAllNone := by
  refine ⟨rfl, rfl, ?_⟩
  intro h
  rw [show get_pollenstiftung httpGet301 (PyVal.int 51) (PyVal.int 10) =
        [("birke", PyVal.int 2), ("gräser", PyVal.none),
         ("ambrosia", PyVal.none)] from rfl] at h
  simp [pollenAllNone] at h

/-- C2 amended: if the remote pollen fetch fails — a raised network
error, a 4xx/5xx HTTP error status (the statuses raise_for_status
raises on; a 3xx slips through), a JSON body that fails to parse, or
a parsed body that is not a dict — then get_pollenstiftung returns
the dict with all three values absent, and no exception escapes (the
function is total by its catch-all except). -/
theorem get_pollenstiftung_failure_all_absent
    (httpGet : PyVal → PyVal → Except Err Resp) (lat lon : PyVal)
    (h : (∃ e, httpGet lat lon = Except.error e) ∨
         (∃ resp, httpGet lat lon = Except.ok resp ∧
            ((400 ≤ resp.status ∧ resp.status < 600) ∨
             (∃ e, resp.jsonBody = Except.error e) ∨
             (∃ v, resp.jsonBody = Except.ok v ∧ v.isDict = false)))) :
    get_pollenstiftung httpGet lat lon = pollenAllNone := by
  have hfail : ∃ e, pollenstiftungTry httpGet lat lon = Except.error e := by
    rcases h with ⟨e, he⟩ | ⟨resp, hr, hcase⟩
    · exact ⟨e, by unfold pollenstiftungTry; simp only [he, error_bind]⟩
    · cases hrs : raiseForStatus resp with
      | error e2 =>
          exact ⟨e2, by
            unfold pollenstiftungTry
            simp only [hr, ok_bind, hrs, error_bind]⟩
      | ok u =>
          rcases hcase with hstat | ⟨e, hjson⟩ | ⟨v, hjson, hnd⟩
          · exfalso
            unfold raiseForStatus at hrs
            rw [if_pos hstat] at hrs
            cases hrs
          · exact ⟨e, by
              unfold pollenstiftungTry
              simp only [hr, ok_bind, hrs, hjson, error_bind]⟩
          · refine ⟨Err.attrError, ?_⟩
            unfold pollenstiftungTry
            simp only [hr, ok_bind, hrs, hjson]
            cases v with
            | dict fs => exact absurd hnd (by simp [PyVal.isDict])
            | none => rfl
            | int n => rfl
            | str s => rfl
  obtain ⟨e, he⟩ := hfail
  unfold get_pollenstiftung
  rw [he]

/-- C2 witness: an HTTP 500 response yields the all-absent dict. -/
theorem get_pollenstiftung_failure_all_absent_wit :
    httpGet500 (PyVal.int 51) (PyVal.int 10) =
      Except.ok { status := 500, jsonBody := Except.ok (PyVal.dict []) } ∧
    get_pollenstiftung httpGet500 (PyVal.int 51) (PyVal.int 10) =
      pollenAllNone :=
  ⟨rfl,
   get_pollenstiftung_failure_all_absent httpGet500 (PyVal.int 51)
     (PyVal.int 10)
     (Or.inr ⟨{ status := 500, jsonBody := Except.ok (PyVal.dict []) }, rfl,
       Or.inl (by decide)⟩)⟩

/-- C7: the save block appends a single data row without re-writing
the header when the store file exists, and creates header + first row
when it does not; consequently N ≥ 1 successful saves starting from a
fresh (non-existent) store yield exactly one header row followed by N
data rows, all thirteen cells wide in the same column order. -/
theorem save_policy_and_fresh_store_shape
    (a : EntryArgs) (rest : List EntryArgs) (rows : StoreFile) :
    saveStep (mkEntry a) (Option.some rows) = rows ++ [dataRowOf (mkEntry a)] ∧
    saveStep (mkEntry a) Option.none =
      [headerRowOf (mkEntry a), dataRowOf (mkEntry a)] ∧
    saveAll ((a :: rest).map mkEntry) Option.none =
      Option.some (entryFieldOrder.map PyVal.str ::
        (a :: rest).map (fun x => dataRowOf (mkEntry x))) ∧
    (entryFieldOrder.map PyVal.str).length = 13 ∧
    ((a :: rest).map (fun x => dataRowOf (mkEntry x))).length =
      rest.length + 1 ∧
    ((a :: rest).map (fun x => dataRowOf (mkEntry x))).all
      (fun row => row.length == 13) = true := by
  refine ⟨rfl, rfl, ?_, rfl, by simp, ?_⟩
  · show saveAll (mkEntry a :: rest.map mkEntry) Option.none = _
    rw [saveAll, saveAll_some]
    show Option.some (saveStep (mkEntry a) Option.none ++
      (rest.map mkEntry).map dataRowOf) = _
    rw [saveStep]
    simp [List.map_map]
    rfl
  · simp [List.all_eq_true]
    exact ⟨rfl, fun x hx => rfl⟩
